import Mathlib

/-!
Shallow embedding of `src/api/calculate.py`: a whitelist-validated arithmetic
expression evaluator over Python syntax trees.

Modelling conventions, stated once here:

* Python numbers (int and float merged) are modelled as exact rationals `ℚ`.
  Binary float rounding is below this abstraction; every concrete value any
  claim constrains (small integers, `sqrt(16)`, factorials) is exact in IEEE
  doubles as well.
* CPython's parser (`ast.parse(expression, mode="eval")`) is ambient runtime,
  not repository code: `evaluate_expression` below receives the parse outcome
  as an explicit parameter (`Except String PyExpr`, a syntax-error message or
  the parsed tree).  Concrete theorems instantiate it with the actual CPython
  parse of the quoted source string.
* Transcendental functions (sin, exp, fractional powers, ...) have no exact
  rational values; the development is parametrised by a `TranscendentalModel`
  supplying arbitrary numeric models for them, so every theorem below holds
  for every such model.  Only their error/domain structure is fixed, following
  CPython `math` semantics.
-/

/-- Python exception classes relevant to the evaluator.  `evaluationError` is
the repository's `EvaluationError(ValueError)`; the others are raw interpreter
exceptions.  Each carries the exception message. -/
inductive PyError where
  | evaluationError (msg : String)
  | zeroDivisionError (msg : String)
  | valueError (msg : String)
  | typeError (msg : String)
  | overflowError (msg : String)
  | syntaxError (msg : String)
  | nameError (msg : String)
deriving DecidableEq, Repr

/-- Whether an error is one of the two core error kinds of the spec: both
(InvalidExpression and UnsupportedElement) are raised as the single class
`EvaluationError`, distinguished only by message. -/
def isCoreError : PyError → Bool
  | .evaluationError _ => true
  | _ => false

/-- Python constant literals as produced by `ast.parse` for `ast.Constant`
nodes: numbers, booleans, strings, imaginary literals and `None`.  Note that
since Python 3.8 string literals parse as `ast.Constant`, the same node kind
as numeric literals. -/
inductive ConstVal where
  | num (q : ℚ)
  | boolLit (b : Bool)
  | strLit (s : String)
  | complexLit (re im : ℚ)
  | noneLit
deriving DecidableEq, Repr

/-- Binary operator node kinds appearing under `ast.BinOp`; these seven are
exactly the operator node classes listed in `ALLOWED_NODES`. -/
inductive BinOpKind where
  | add | sub | mult | div | mod | floorDiv | pow
deriving DecidableEq, Repr

/-- Unary operator node kinds under `ast.UnaryOp`.  `USub`/`UAdd` are in
`ALLOWED_NODES`; `Not` (a boolean operator) is not and is rejected by the
validator when it visits the operator child node. -/
inductive UnaryOpKind where
  | usub | uadd | notOp
deriving DecidableEq, Repr

/-- Python expression trees (`mode="eval"` bodies), covering the node kinds in
`ALLOWED_NODES` plus the disallowed expression kinds named by the spec:
attribute access, subscripts, comparisons, boolean operators, lambdas,
conditional expressions and comprehensions.  `import` statements and `def`
cannot occur at all in an eval-mode parse (they are syntax errors there).
Keyword arguments of `Call` are left out of the model (no claim involves
them); `listComp` stands for all four comprehension node kinds. -/
inductive PyExpr where
  | constant (c : ConstVal)
  | name (id : String)
  | binOp (left : PyExpr) (op : BinOpKind) (right : PyExpr)
  | unaryOp (op : UnaryOpKind) (operand : PyExpr)
  | call (func : PyExpr) (args : List PyExpr)
  | tuple (elts : List PyExpr)
  | list (elts : List PyExpr)
  | attribute (value : PyExpr) (attr : String)
  | subscript (value : PyExpr) (index : PyExpr)
  | compare (left : PyExpr) (right : PyExpr)
  | boolOp (values : List PyExpr)
  | lambda (body : PyExpr)
  | ifExp (test body orelse : PyExpr)
  | listComp (elt : PyExpr)
deriving Repr

/-- The `type(node).__name__` used in the validator's error message, for the
node kinds the validator can actually reject. -/
def nodeKindName : PyExpr → String
  | .constant _ => "Constant"
  | .name _ => "Name"
  | .binOp .. => "BinOp"
  | .unaryOp .. => "UnaryOp"
  | .call .. => "Call"
  | .tuple _ => "Tuple"
  | .list _ => "List"
  | .attribute .. => "Attribute"
  | .subscript .. => "Subscript"
  | .compare .. => "Compare"
  | .boolOp _ => "BoolOp"
  | .lambda _ => "Lambda"
  | .ifExp .. => "IfExp"
  | .listComp _ => "ListComp"

/-- Whether a unary operator node class is in `ALLOWED_NODES` (`USub` and
`UAdd` are listed; `Not` is not). -/
def unaryOpAllowed : UnaryOpKind → Bool
  | .usub => true
  | .uadd => true
  | .notOp => false

/-- Class name of a unary operator node, for the rejection message. -/
def unaryOpKindName : UnaryOpKind → String
  | .usub => "USub"
  | .uadd => "UAdd"
  | .notOp => "Not"

/-- The error raised by `_validate_node` on a disallowed node:
`EvaluationError(f"Unsupported expression element: {type(node).__name__}")`. -/
def unsupportedMsg (k : String) : PyError :=
  .evaluationError ("Unsupported expression element: " ++ k)

mutual

/-- Embedding of `_validate_node`: reject the node if its class is not in
`ALLOWED_NODES`, then recurse over `ast.iter_child_nodes` in field order.
All seven `BinOp` operator classes are allowed, as are `Load` contexts, so
only the operator child of `UnaryOp` (checked before the operand, matching
field order) and the disallowed expression kinds can fail. -/
def validate : PyExpr → Except PyError Unit
  | .constant _ => .ok ()
  | .name _ => .ok ()
  | .binOp l _ r =>
    match validate l with
    | .error e => .error e
    | .ok _ => validate r
  | .unaryOp op e =>
    if unaryOpAllowed op then validate e else .error (unsupportedMsg (unaryOpKindName op))
  | .call f args =>
    match validate f with
    | .error e => .error e
    | .ok _ => validateList args
  | .tuple es => validateList es
  | .list es => validateList es
  | e => .error (unsupportedMsg (nodeKindName e))

/-- Validation of a list of child nodes, left to right, stopping at the first
rejection. -/
def validateList : List PyExpr → Except PyError Unit
  | [] => .ok ()
  | e :: es =>
    match validate e with
    | .error err => .error err
    | .ok _ => validateList es

end

mutual

/-- Whether a tree contains, anywhere, a node whose class is outside
`ALLOWED_NODES`: one of the disallowed expression kinds, or a `Not` operator.
String literals are NOT such nodes: they are `ast.Constant`, which is
whitelisted. -/
def hasDisallowed : PyExpr → Bool
  | .constant _ => false
  | .name _ => false
  | .binOp l _ r => hasDisallowed l || hasDisallowed r
  | .unaryOp op e => !unaryOpAllowed op || hasDisallowed e
  | .call f args => hasDisallowed f || hasDisallowedList args
  | .tuple es => hasDisallowedList es
  | .list es => hasDisallowedList es
  | _ => true

/-- List version of `hasDisallowed`. -/
def hasDisallowedList : List PyExpr → Bool
  | [] => false
  | e :: es => hasDisallowed e || hasDisallowedList es

end

mutual

/-- Whether a tree contains a string literal (which parses as the whitelisted
`Constant` node kind). -/
def hasStringLit : PyExpr → Bool
  | .constant (.strLit _) => true
  | .constant _ => false
  | .name _ => false
  | .binOp l _ r => hasStringLit l || hasStringLit r
  | .unaryOp _ e => hasStringLit e
  | .call f args => hasStringLit f || hasStringLitList args
  | .tuple es => hasStringLitList es
  | .list es => hasStringLitList es
  | .attribute v _ => hasStringLit v
  | .subscript v i => hasStringLit v || hasStringLit i
  | .compare l r => hasStringLit l || hasStringLit r
  | .boolOp vs => hasStringLitList vs
  | .lambda b => hasStringLit b
  | .ifExp c t e => hasStringLit c || hasStringLit t || hasStringLit e
  | .listComp e => hasStringLit e

/-- List version of `hasStringLit`. -/
def hasStringLitList : List PyExpr → Bool
  | [] => false
  | e :: es => hasStringLit e || hasStringLitList es

end

/-- The class names that can appear in a validator rejection message. -/
def disallowedKindNames : List String :=
  ["Not", "Attribute", "Subscript", "Compare", "BoolOp", "Lambda", "IfExp", "ListComp"]

/-- Python runtime values that can arise while evaluating a validated (or, for
the counterexamples, merely parsed) tree in the restricted environment:
numbers, booleans, strings, complex numbers (as exact rational pairs), tuples,
lists, registry callables (defunctionalised as their registry key), the empty
`__builtins__` dict installed by `safe_globals`, and `None`. -/
inductive Value where
  | num (q : ℚ)
  | boolV (b : Bool)
  | strV (s : String)
  | complexV (re im : ℚ)
  | tupleV (vs : List Value)
  | listV (vs : List Value)
  | builtinFunc (key : String)
  | emptyDict
  | noneV
deriving Repr

/-- Whether `isinstance(result, complex)` holds: only genuine complex values
(ints, floats and bools are not instances of `complex`). -/
def isComplexV : Value → Bool
  | .complexV _ _ => true
  | _ => false

/-- Numeric models for the transcendental registry functions and for
fractional powers, whose values are irrational and therefore enter the
embedding as parameters: every theorem below holds for every model.  Only the
domain/error structure of these functions is fixed (in the registry
definitions), following CPython `math` semantics. -/
structure TranscendentalModel where
  sinVal : ℚ → ℚ
  cosVal : ℚ → ℚ
  tanVal : ℚ → ℚ
  asinVal : ℚ → ℚ
  acosVal : ℚ → ℚ
  atanVal : ℚ → ℚ
  sinhVal : ℚ → ℚ
  coshVal : ℚ → ℚ
  tanhVal : ℚ → ℚ
  logVal : ℚ → ℚ
  log10Val : ℚ → ℚ
  expVal : ℚ → ℚ
  /-- Value of `pow`/`**` for a non-negative base and non-integer exponent. -/
  powFracVal : ℚ → ℚ → ℚ
  /-- Real part of `**` when the result is complex (negative base with
  non-integer exponent, or a complex operand). -/
  cpowReVal : ℚ → ℚ → ℚ → ℚ → ℚ
  /-- Imaginary part of `**` in the complex cases. -/
  cpowImVal : ℚ → ℚ → ℚ → ℚ → ℚ

/-- An arbitrary instantiation of the transcendental models, used only to
produce closed witnesses of theorems that hold for every model. -/
def defaultTM : TranscendentalModel :=
  { sinVal := fun _ => 0, cosVal := fun _ => 0, tanVal := fun _ => 0
    asinVal := fun _ => 0, acosVal := fun _ => 0, atanVal := fun _ => 0
    sinhVal := fun _ => 0, coshVal := fun _ => 0, tanhVal := fun _ => 0
    logVal := fun _ => 0, log10Val := fun _ => 0, expVal := fun _ => 0
    powFracVal := fun _ _ => 0
    cpowReVal := fun _ _ _ _ => 0, cpowImVal := fun _ _ _ _ => 0 }

/-- The IEEE double nearest pi, as an exact rational: the value of `math.pi`. -/
def piDouble : ℚ := (884279719003555 : ℚ) / 281474976710656

/-- The IEEE double nearest e: the value of `math.e`. -/
def eDouble : ℚ := (6121026514868073 : ℚ) / 2251799813685248

/-- The IEEE double nearest tau: the value of `math.tau`. -/
def tauDouble : ℚ := (1768559438007110 : ℚ) / 281474976710656

/-- Embedding of `SAFE_CONSTANTS`: pi, e, tau. -/
def SAFE_CONSTANTS : String → Option ℚ
  | "pi" => some piDouble
  | "e" => some eDouble
  | "tau" => some tauDouble
  | _ => none

/-- View a value as a real number the way CPython arithmetic and the `math`
functions do: ints/floats are themselves, bools coerce (True = 1, False = 0),
everything else is not a real number. -/
def asNum : Value → Option ℚ
  | .num q => some q
  | .boolV b => some (if b then 1 else 0)
  | _ => none

/-- Lift a total real function (e.g. `math.sin`) to a registry callable: a
non-numeric argument is a `TypeError` (`math` functions reject even numeric
strings), a numeric one is mapped through the function. -/
def lift1 (f : ℚ → ℚ) : Value → Except PyError Value :=
  fun v =>
    match asNum v with
    | some q => .ok (.num (f q))
    | none => .error (.typeError "must be real number")

/-- Lift a real function with a domain restriction: outside the domain CPython
`math` functions raise `ValueError("math domain error")`. -/
def liftDom (dom : ℚ → Bool) (f : ℚ → ℚ) : Value → Except PyError Value :=
  fun v =>
    match asNum v with
    | some q => if dom q then .ok (.num (f q)) else .error (.valueError "math domain error")
    | none => .error (.typeError "must be real number")

/-- Floor square root of a natural number by bounded scan (a computable stand
in for `Nat.sqrt` that reduces definitionally). -/
def natSqrtModel (n : ℕ) : ℕ :=
  (List.range (n + 1)).foldl (fun acc k => if k * k ≤ n then k else acc) 0

/-- Exact square root on the rationals whose square root is rational, the
only points at which any claim constrains `sqrt` (IEEE `math.sqrt` is also
exact there); elsewhere the floor-based value is a numeric model of the float
approximation. -/
def ratSqrt (q : ℚ) : ℚ :=
  (natSqrtModel q.num.toNat : ℚ) / (natSqrtModel q.den : ℚ)

/-- Embedding of `math.pow x e` (also used, merged with int `**`, for the
`**` operator on real operands): `0` to a negative power and a negative base
with non-integer exponent are `ValueError("math domain error")`; integer
exponents are exact powers; fractional powers of non-negative bases take
their value from the transcendental model.  (Overflow of huge results inside
`math.pow` is below this model; no claim touches it.) -/
def mathPowModel (TM : TranscendentalModel) (x e : ℚ) : Except PyError ℚ :=
  if x = 0 ∧ e < 0 then .error (.valueError "math domain error")
  else if x < 0 ∧ e.den ≠ 1 then .error (.valueError "math domain error")
  else if e.den = 1 then .ok (x ^ e.num)
  else .ok (TM.powFracVal x e)

/-- Embedding of `_factorial` from the source:
`if int(x) != x or x < 0: raise ValueError(...)` then
`return math.factorial(int(x))`.  `int(x) != x` on a real number is exactly
`x.den ≠ 1`; on a bool it is false (True == 1); a string argument either
fails `int(...)` (non-digit strings) or is unequal to its `int` (a number
never equals a string), and other types fail `int(...)` with a `TypeError`. -/
def factFun : Value → Except PyError Value
  | .num q =>
    if q.den ≠ 1 ∨ q < 0 then
      .error (.valueError "Factorial is only defined for non-negative integers.")
    else .ok (.num (Nat.factorial q.num.toNat : ℚ))
  | .boolV b => .ok (.num (Nat.factorial (if b then 1 else 0) : ℚ))
  | .strV s =>
    if s ≠ "" ∧ s.data.all Char.isDigit then
      .error (.valueError "Factorial is only defined for non-negative integers.")
    else .error (.valueError "invalid literal for int with base 10")
  | _ => .error (.typeError "int argument must be a string or a number")

/-- Round-half-to-even to an integer, the semantics of Python `round` with a
single argument. -/
def pyRound (q : ℚ) : ℚ :=
  let n : ℤ := ⌊q⌋
  let frac : ℚ := q - (n : ℚ)
  if frac < 1 / 2 then (n : ℚ)
  else if 1 / 2 < frac then (n + 1 : ℤ)
  else if Even n then (n : ℚ) else (n + 1 : ℤ)

/-- Embedding of `math.radians`: multiplication by pi/180 (with the double
value of pi as the rational model of the conversion factor). -/
def radModel (q : ℚ) : ℚ := q * piDouble / 180

/-- Embedding of `math.degrees`: multiplication by 180/pi. -/
def degModel (q : ℚ) : ℚ := q * 180 / piDouble

/-- Embedding of the `SAFE_FUNCTIONS` dict (including the entries added after
its literal: `fact`, `factorial` and the six `_deg` lambdas), as a lookup from
the identifier to the callable.  Domain restrictions follow CPython `math`
(`asin`/`acos` need `|x| ≤ 1`, `log`/`log10` need `0 < x`, `sqrt` needs
`0 ≤ x`); `cbrt` is literally `fun x => math.pow x (1/3)` as in the source.
The two-argument forms of `log` and `round` are outside the model (no claim
calls any registry function with two arguments). -/
def SAFE_FUNCTIONS (TM : TranscendentalModel) :
    String → Option (Value → Except PyError Value)
  | "sin" => some (lift1 TM.sinVal)
  | "cos" => some (lift1 TM.cosVal)
  | "tan" => some (lift1 TM.tanVal)
  | "asin" => some (liftDom (fun q => |q| ≤ 1) TM.asinVal)
  | "acos" => some (liftDom (fun q => |q| ≤ 1) TM.acosVal)
  | "atan" => some (lift1 TM.atanVal)
  | "sinh" => some (lift1 TM.sinhVal)
  | "cosh" => some (lift1 TM.coshVal)
  | "tanh" => some (lift1 TM.tanhVal)
  | "log" => some (liftDom (fun q => 0 < q) TM.logVal)
  | "ln" => some (liftDom (fun q => 0 < q) TM.logVal)
  | "log10" => some (liftDom (fun q => 0 < q) TM.log10Val)
  | "sqrt" => some (liftDom (fun q => 0 ≤ q) ratSqrt)
  | "cbrt" => some (fun v =>
      match asNum v with
      | some q =>
        match mathPowModel TM q (1 / 3) with
        | .ok r => .ok (.num r)
        | .error e => .error e
      | none => .error (.typeError "must be real number"))
  | "exp" => some (lift1 TM.expVal)
  | "abs" => some (lift1 (fun q => |q|))
  | "floor" => some (lift1 (fun q => (⌊q⌋ : ℚ)))
  | "ceil" => some (lift1 (fun q => (⌈q⌉ : ℚ)))
  | "round" => some (lift1 pyRound)
  | "deg" => some (lift1 degModel)
  | "rad" => some (lift1 radModel)
  | "fact" => some factFun
  | "factorial" => some factFun
  | "sin_deg" => some (lift1 (fun x => TM.sinVal (radModel x)))
  | "cos_deg" => some (lift1 (fun x => TM.cosVal (radModel x)))
  | "tan_deg" => some (lift1 (fun x => TM.tanVal (radModel x)))
  | "asin_deg" => some (liftDom (fun q => |q| ≤ 1) (fun x => degModel (TM.asinVal x)))
  | "acos_deg" => some (liftDom (fun q => |q| ≤ 1) (fun x => degModel (TM.acosVal x)))
  | "atan_deg" => some (lift1 (fun x => degModel (TM.atanVal x)))
  | _ => none

/-- Name resolution inside `eval(compiled, safe_globals, safe_locals)`:
locals first — the merged dict `{**SAFE_FUNCTIONS, **SAFE_CONSTANTS}` (keys
are disjoint, so the merge order is immaterial) — then globals, which hold
only the `__builtins__` key bound to an empty dict; any other name is a
`NameError`. -/
def resolveName (TM : TranscendentalModel) (id : String) : Option Value :=
  match SAFE_FUNCTIONS TM id with
  | some _ => some (.builtinFunc id)
  | none =>
    match SAFE_CONSTANTS id with
    | some q => some (.num q)
    | none => if id = "__builtins__" then some .emptyDict else none

/-- Value of an `ast.Constant` node. -/
def constToValue : ConstVal → Value
  | .num q => .num q
  | .boolLit b => .boolV b
  | .strLit s => .strV s
  | .complexLit re im => .complexV re im
  | .noneLit => .noneV

/-- A real or complex number, the view CPython arithmetic takes of its
numeric operands (bools count as ints). -/
inductive NumV where
  | real (q : ℚ)
  | cplx (re im : ℚ)

/-- Numeric view of a value for binary arithmetic. -/
def toNumV : Value → Option NumV
  | .num q => some (.real q)
  | .boolV b => some (.real (if b then 1 else 0))
  | .complexV re im => some (.cplx re im)
  | _ => none

/-- Whether a rational lies strictly inside the IEEE double range:
`|q| < 2 ^ 1024`, stated over the numerator and denominator so that it
evaluates by natural-number arithmetic. -/
def inDoubleRange (q : ℚ) : Bool := q.num.natAbs < 2 ^ 1024 * q.den

/-- Binary arithmetic on two real numbers, CPython semantics: true division,
`%` and `//` with the floor convention (result sign follows the divisor),
division by zero raising `ZeroDivisionError`, and `**` with exact integer
powers (`0` to a negative power raises `ZeroDivisionError`), fractional
powers of non-negative bases from the transcendental model, and fractional
powers of negative bases producing a complex number (CPython computes one via
`exp`/`log`; its components come from the model).  True division always
produces a float in Python, and CPython raises
`OverflowError("integer division result too large for a float")` inside the
operator when the quotient of two ints exceeds the double range; the model
raises that error for every out-of-range quotient (float-typed operands whose
quotient would silently saturate to `inf` are outside the exact-rational
abstraction).  Integer `+`, `-`, `*`, `%`, `//` and non-negative integer
powers are arbitrary-precision in Python and stay exact. -/
def realBinOp (TM : TranscendentalModel) : BinOpKind → ℚ → ℚ → Except PyError Value
  | .add, l, r => .ok (.num (l + r))
  | .sub, l, r => .ok (.num (l - r))
  | .mult, l, r => .ok (.num (l * r))
  | .div, l, r =>
    if r = 0 then .error (.zeroDivisionError "division by zero")
    else if inDoubleRange (l / r) then .ok (.num (l / r))
    else .error (.overflowError "integer division result too large for a float")
  | .mod, l, r =>
    if r = 0 then .error (.zeroDivisionError "division by zero")
    else .ok (.num (l - r * (⌊l / r⌋ : ℚ)))
  | .floorDiv, l, r =>
    if r = 0 then .error (.zeroDivisionError "division by zero")
    else .ok (.num ((⌊l / r⌋ : ℤ) : ℚ))
  | .pow, l, r =>
    if l = 0 ∧ r < 0 then
      .error (.zeroDivisionError "zero cannot be raised to a negative power")
    else if r.den = 1 then .ok (.num (l ^ r.num))
    else if l < 0 then .ok (.complexV (TM.cpowReVal l 0 r 0) (TM.cpowImVal l 0 r 0))
    else .ok (.num (TM.powFracVal l r))

/-- Binary arithmetic when at least one operand is complex: `+`, `-`, `*` and
`/` by the usual formulas (division by complex zero raising
`ZeroDivisionError`), `%` and `//` raising `TypeError` (CPython: complex
numbers support neither), and `**` taking its components from the
transcendental model. -/
def complexBinOp (TM : TranscendentalModel) :
    BinOpKind → ℚ × ℚ → ℚ × ℚ → Except PyError Value
  | .add, (a, b), (c, d) => .ok (.complexV (a + c) (b + d))
  | .sub, (a, b), (c, d) => .ok (.complexV (a - c) (b - d))
  | .mult, (a, b), (c, d) => .ok (.complexV (a * c - b * d) (a * d + b * c))
  | .div, (a, b), (c, d) =>
    if c = 0 ∧ d = 0 then .error (.zeroDivisionError "division by zero")
    else
      .ok (.complexV ((a * c + b * d) / (c * c + d * d))
        ((b * c - a * d) / (c * c + d * d)))
  | .mod, _, _ => .error (.typeError "unsupported operand type for complex")
  | .floorDiv, _, _ => .error (.typeError "unsupported operand type for complex")
  | .pow, (a, b), (c, d) => .ok (.complexV (TM.cpowReVal a b c d) (TM.cpowImVal a b c d))

/-- String repetition for `str * int`. -/
def strRepeat (s : String) (n : ℤ) : String :=
  String.join (List.replicate n.toNat s)

/-- Embedding of CPython binary operator dispatch for the operand types the
restricted environment can produce.  Beyond numbers: `str + str`
concatenates, `str * int` (and `int * str`) repeats, and sequence
concatenation/repetition for tuples and lists likewise; every other
combination is a `TypeError`. -/
def applyBinOp (TM : TranscendentalModel) (op : BinOpKind) (v1 v2 : Value) :
    Except PyError Value :=
  match toNumV v1, toNumV v2 with
  | some (.real l), some (.real r) => realBinOp TM op l r
  | some (.real l), some (.cplx c d) => complexBinOp TM op (l, 0) (c, d)
  | some (.cplx a b), some (.real r) => complexBinOp TM op (a, b) (r, 0)
  | some (.cplx a b), some (.cplx c d) => complexBinOp TM op (a, b) (c, d)
  | _, _ =>
    match op, v1, v2 with
    | .add, .strV s1, .strV s2 => .ok (.strV (s1 ++ s2))
    | .mult, .strV s, .num q =>
      if q.den = 1 then .ok (.strV (strRepeat s q.num))
      else .error (.typeError "cannot multiply sequence by non-int")
    | .mult, .num q, .strV s =>
      if q.den = 1 then .ok (.strV (strRepeat s q.num))
      else .error (.typeError "cannot multiply sequence by non-int")
    | .add, .tupleV t1, .tupleV t2 => .ok (.tupleV (t1 ++ t2))
    | .add, .listV l1, .listV l2 => .ok (.listV (l1 ++ l2))
    | _, _, _ => .error (.typeError "unsupported operand types")

/-- CPython truthiness, used only by the (validator-unreachable) `not`
operator and kept for totality of the evaluator. -/
def truthy : Value → Bool
  | .num q => q ≠ 0
  | .boolV b => b
  | .strV s => s ≠ ""
  | .complexV re im => re ≠ 0 || im ≠ 0
  | .tupleV vs => !vs.isEmpty
  | .listV vs => !vs.isEmpty
  | .builtinFunc _ => true
  | .emptyDict => false
  | .noneV => false

/-- Unary operator semantics: negation and unary plus on numbers (bools
promote to ints), `TypeError` elsewhere; `not` computes truthiness (it can
never survive validation, see `validate`). -/
def applyUnaryOp : UnaryOpKind → Value → Except PyError Value
  | .usub, v =>
    match toNumV v with
    | some (.real q) => .ok (.num (-q))
    | some (.cplx re im) => .ok (.complexV (-re) (-im))
    | none => .error (.typeError "bad operand type for unary -")
  | .uadd, v =>
    match toNumV v with
    | some (.real q) => .ok (.num q)
    | some (.cplx re im) => .ok (.complexV re im)
    | none => .error (.typeError "bad operand type for unary +")
  | .notOp, v => .ok (.boolV (!truthy v))

/-- Call dispatch: the only callables in the environment are the registry
functions (`Value.builtinFunc` is produced solely by `resolveName`); they are
applied to exactly one positional argument (every registry function is used
unarily; other arities raise `TypeError`), and calling any non-callable value
is a `TypeError`. -/
def applyCall (TM : TranscendentalModel) (fv : Value) (args : List Value) :
    Except PyError Value :=
  match fv with
  | .builtinFunc key =>
    match SAFE_FUNCTIONS TM key with
    | some f =>
      match args with
      | [a] => f a
      | _ => .error (.typeError "takes exactly one argument")
    | none => .error (.typeError "object is not callable")
  | _ => .error (.typeError "object is not callable")

mutual

/-- Embedding of CPython `eval` on the parsed tree in the restricted
environment (`safe_globals`/`safe_locals`): constants evaluate to their
values, names resolve through `resolveName` (a miss is a `NameError`),
operators and calls evaluate operands left to right and dispatch as above.
The disallowed node kinds can never reach evaluation — `evaluate_expression`
validates first and `validate` rejects every tree containing them — so their
branches (CPython would evaluate them) are modelled as an arbitrary error and
are dead code under every theorem below. -/
def evalExpr (TM : TranscendentalModel) : PyExpr → Except PyError Value
  | .constant c => .ok (constToValue c)
  | .name id =>
    match resolveName TM id with
    | some v => .ok v
    | none => .error (.nameError ("name " ++ id ++ " is not defined"))
  | .binOp l op r =>
    match evalExpr TM l with
    | .error e => .error e
    | .ok lv =>
      match evalExpr TM r with
      | .error e => .error e
      | .ok rv => applyBinOp TM op lv rv
  | .unaryOp op e =>
    match evalExpr TM e with
    | .error err => .error err
    | .ok v => applyUnaryOp op v
  | .call f args =>
    match evalExpr TM f with
    | .error e => .error e
    | .ok fv =>
      match evalList TM args with
      | .error e => .error e
      | .ok avs => applyCall TM fv avs
  | .tuple es =>
    match evalList TM es with
    | .error e => .error e
    | .ok vs => .ok (.tupleV vs)
  | .list es =>
    match evalList TM es with
    | .error e => .error e
    | .ok vs => .ok (.listV vs)
  | _ => .error (.typeError "unreachable: rejected by validation")

/-- Left-to-right evaluation of argument/element lists. -/
def evalList (TM : TranscendentalModel) : List PyExpr → Except PyError (List Value)
  | [] => .ok []
  | e :: es =>
    match evalExpr TM e with
    | .error err => .error err
    | .ok v =>
      match evalList TM es with
      | .error err => .error err
      | .ok vs => .ok (v :: vs)

end

/-- The `except` chain around `result = eval(...)` in `evaluate_expression`:
`ZeroDivisionError` becomes "Division by zero.", `ValueError` (which includes
`EvaluationError`) keeps its message, `OverflowError` becomes
"Result overflow.", and any other exception becomes "Invalid expression.". -/
def translateEvalError : PyError → String
  | .zeroDivisionError _ => "Division by zero."
  | .valueError m => m
  | .evaluationError m => m
  | .overflowError _ => "Result overflow."
  | _ => "Invalid expression."

/-- Embedding of the final `float(result)` — which the source performs
OUTSIDE the `try` block, so its exceptions are raw.  A number inside the
IEEE double range is returned; conversion of an integer of magnitude at
least `2^1024` raises `OverflowError` (out-of-range NON-integral rationals
cannot arise in CPython, where every non-int value is already a double; the
model maps them to the same raw `OverflowError` rather than inventing an
infinity).  Bools become 0/1; a string converts when it is a plain digit
string (a numeric model of `float(str)` covering every string any claim
evaluates) and otherwise raises `ValueError`; every other type raises
`TypeError`. -/
def pyFloat : Value → Except PyError ℚ
  | .num q =>
    if inDoubleRange q then .ok q
    else .error (.overflowError "int too large to convert to float")
  | .boolV b => .ok (if b then 1 else 0)
  | .strV s =>
    if s ≠ "" ∧ s.data.all Char.isDigit then
      .ok ((s.data.foldl (fun n c => n * 10 + (c.toNat - 48)) 0 : ℕ) : ℚ)
    else .error (.valueError "could not convert string to float")
  | .complexV _ _ => .error (.typeError "cannot convert complex to float")
  | _ => .error (.typeError "float argument must be a string or a real number")

/-- The argument the HTTP layer passes to `evaluate_expression`: either a
string, or any non-string object (e.g. a JSON number or null from the request
body); for a non-string only its truthiness could matter to the guard, and in
fact does not. -/
inductive PyInput where
  | pyStr (s : String)
  | pyNonStr (truthy : Bool)
deriving DecidableEq, Repr

/-- Embedding of `evaluate_expression`.  Control flow mirrors the source
line by line:
`if not expression or not isinstance(expression, str)` raises
`EvaluationError("Expression is empty.")`;
`ast.parse` (modelled by the `parsed` parameter) raises a RAW `SyntaxError`
on bad syntax — the call is not inside any `try`;
`_validate_node` raises `EvaluationError` on a disallowed node;
`eval` runs under the `except` chain, re-raising as `EvaluationError` via
`translateEvalError`;
the complex check raises `EvaluationError("Complex results are not
supported.")`; and the final `float(result)` runs OUTSIDE the `try`, so its
exceptions propagate raw.  (`compile(parsed, ...)` is semantically inert and
has no counterpart.) -/
def evaluate_expression (TM : TranscendentalModel) (expression : PyInput)
    (parsed : Except String PyExpr) : Except PyError ℚ :=
  match expression with
  | .pyNonStr _ => .error (.evaluationError "Expression is empty.")
  | .pyStr s =>
    if s = "" then .error (.evaluationError "Expression is empty.")
    else
      match parsed with
      | .error msg => .error (.syntaxError msg)
      | .ok tree =>
        match validate tree with
        | .error e => .error e
        | .ok _ =>
          match evalExpr TM tree with
          | .error e => .error (.evaluationError (translateEvalError e))
          | .ok v =>
            if isComplexV v then
              .error (.evaluationError "Complex results are not supported.")
            else pyFloat v

/-- Decidable equality of `Except` results, so that concrete runs of the
pipeline can be checked by `decide`. -/
instance {ε α : Type} [DecidableEq ε] [DecidableEq α] : DecidableEq (Except ε α) :=
  fun a b =>
    match a, b with
    | .ok x, .ok y =>
      if h : x = y then .isTrue (by rw [h]) else .isFalse (by simp [h])
    | .error x, .error y =>
      if h : x = y then .isTrue (by rw [h]) else .isFalse (by simp [h])
    | .ok _, .error _ => .isFalse (by simp)
    | .error _, .ok _ => .isFalse (by simp)

/-- A sequence of independent calls to `evaluate_expression`, as the
request-handling layer performs them: the embedding is a pure function, which
is itself the formal content of the source's statelessness (the registry is
built once at import time and never written; `safe_globals`/`safe_locals` are
rebuilt fresh inside every call; no other state exists). -/
def runSession (TM : TranscendentalModel)
    (calls : List (PyInput × Except String PyExpr)) : List (Except PyError ℚ) :=
  calls.map (fun c => evaluate_expression TM c.1 c.2)

mutual

/-- The validator accepts a tree exactly when no node of the tree is outside
`ALLOWED_NODES`. -/
theorem validate_ok_iff : ∀ t : PyExpr, validate t = .ok () ↔ hasDisallowed t = false
  | .constant _ => by simp [validate, hasDisallowed]
  | .name _ => by simp [validate, hasDisallowed]
  | .binOp l op r => by
    have hl := validate_ok_iff l
    have hr := validate_ok_iff r
    simp only [validate, hasDisallowed]
    cases hvl : validate l with
    | error e =>
      simp only [hvl, iff_true, iff_false] at hl
      rcases hdl : hasDisallowed l with _ | _
      · simp [hdl] at hl
      · simp
    | ok u =>
      cases u
      simp only [hvl, true_iff] at hl
      simp [hl, hr]
  | .unaryOp op e => by
    have he := validate_ok_iff e
    cases op <;> simp [validate, hasDisallowed, unaryOpAllowed, he]
  | .call f args => by
    have hf := validate_ok_iff f
    have ha := validateList_ok_iff args
    simp only [validate, hasDisallowed]
    cases hvf : validate f with
    | error e =>
      simp only [hvf, iff_true, iff_false] at hf
      rcases hdf : hasDisallowed f with _ | _
      · simp [hdf] at hf
      · simp
    | ok u =>
      cases u
      simp only [hvf, true_iff] at hf
      simp [hf, ha]
  | .tuple es => by
    have ha := validateList_ok_iff es
    simp [validate, hasDisallowed, ha]
  | .list es => by
    have ha := validateList_ok_iff es
    simp [validate, hasDisallowed, ha]
  | .attribute v a => by simp [validate, hasDisallowed, unsupportedMsg]
  | .subscript v i => by simp [validate, hasDisallowed, unsupportedMsg]
  | .compare l r => by simp [validate, hasDisallowed, unsupportedMsg]
  | .boolOp vs => by simp [validate, hasDisallowed, unsupportedMsg]
  | .lambda b => by simp [validate, hasDisallowed, unsupportedMsg]
  | .ifExp c t e => by simp [validate, hasDisallowed, unsupportedMsg]
  | .listComp e => by simp [validate, hasDisallowed, unsupportedMsg]

/-- List version of `validate_ok_iff`. -/
theorem validateList_ok_iff :
    ∀ ts : List PyExpr, validateList ts = .ok () ↔ hasDisallowedList ts = false
  | [] => by simp [validateList, hasDisallowedList]
  | e :: es => by
    have he := validate_ok_iff e
    have hes := validateList_ok_iff es
    simp only [validateList, hasDisallowedList]
    cases hve : validate e with
    | error err =>
      simp only [hve, iff_true, iff_false] at he
      rcases hde : hasDisallowed e with _ | _
      · simp [hde] at he
      · simp
    | ok u =>
      cases u
      simp only [hve, true_iff] at he
      simp [he, hes]

end

mutual

/-- Every outcome of the validator is either acceptance or an
`EvaluationError` whose message names one of the disallowed node kinds. -/
theorem validate_shape :
    ∀ t : PyExpr, validate t = .ok () ∨
      ∃ k, k ∈ disallowedKindNames ∧ validate t = .error (unsupportedMsg k)
  | .constant _ => Or.inl rfl
  | .name _ => Or.inl rfl
  | .binOp l op r => by
    rcases validate_shape l with hl | ⟨k, hk, hl⟩
    · rcases validate_shape r with hr | ⟨k, hk, hr⟩
      · exact Or.inl (by simp [validate, hl, hr])
      · exact Or.inr ⟨k, hk, by simp [validate, hl, hr]⟩
    · exact Or.inr ⟨k, hk, by simp [validate, hl]⟩
  | .unaryOp op e => by
    cases op with
    | usub =>
      rcases validate_shape e with he | ⟨k, hk, he⟩
      · exact Or.inl (by simp [validate, unaryOpAllowed, he])
      · exact Or.inr ⟨k, hk, by simp [validate, unaryOpAllowed, he]⟩
    | uadd =>
      rcases validate_shape e with he | ⟨k, hk, he⟩
      · exact Or.inl (by simp [validate, unaryOpAllowed, he])
      · exact Or.inr ⟨k, hk, by simp [validate, unaryOpAllowed, he]⟩
    | notOp =>
      exact Or.inr ⟨"Not", by simp [disallowedKindNames],
        by simp [validate, unaryOpAllowed, unaryOpKindName]⟩
  | .call f args => by
    rcases validate_shape f with hf | ⟨k, hk, hf⟩
    · rcases validateList_shape args with ha | ⟨k, hk, ha⟩
      · exact Or.inl (by simp [validate, hf, ha])
      · exact Or.inr ⟨k, hk, by simp [validate, hf, ha]⟩
    · exact Or.inr ⟨k, hk, by simp [validate, hf]⟩
  | .tuple es => by
    rcases validateList_shape es with ha | ⟨k, hk, ha⟩
    · exact Or.inl (by simp [validate, ha])
    · exact Or.inr ⟨k, hk, by simp [validate, ha]⟩
  | .list es => by
    rcases validateList_shape es with ha | ⟨k, hk, ha⟩
    · exact Or.inl (by simp [validate, ha])
    · exact Or.inr ⟨k, hk, by simp [validate, ha]⟩
  | .attribute v a =>
    Or.inr ⟨"Attribute", by simp [disallowedKindNames], by simp [validate, nodeKindName]⟩
  | .subscript v i =>
    Or.inr ⟨"Subscript", by simp [disallowedKindNames], by simp [validate, nodeKindName]⟩
  | .compare l r =>
    Or.inr ⟨"Compare", by simp [disallowedKindNames], by simp [validate, nodeKindName]⟩
  | .boolOp vs =>
    Or.inr ⟨"BoolOp", by simp [disallowedKindNames], by simp [validate, nodeKindName]⟩
  | .lambda b =>
    Or.inr ⟨"Lambda", by simp [disallowedKindNames], by simp [validate, nodeKindName]⟩
  | .ifExp c t e =>
    Or.inr ⟨"IfExp", by simp [disallowedKindNames], by simp [validate, nodeKindName]⟩
  | .listComp e =>
    Or.inr ⟨"ListComp", by simp [disallowedKindNames], by simp [validate, nodeKindName]⟩

/-- List version of `validate_shape`. -/
theorem validateList_shape :
    ∀ ts : List PyExpr, validateList ts = .ok () ∨
      ∃ k, k ∈ disallowedKindNames ∧ validateList ts = .error (unsupportedMsg k)
  | [] => Or.inl rfl
  | e :: es => by
    rcases validate_shape e with he | ⟨k, hk, he⟩
    · rcases validateList_shape es with hes | ⟨k, hk, hes⟩
      · exact Or.inl (by simp [validateList, he, hes])
      · exact Or.inr ⟨k, hk, by simp [validateList, he, hes]⟩
    · exact Or.inr ⟨k, hk, by simp [validateList, he]⟩

end

/-- On a non-empty string whose parse failed, `evaluate_expression` raises the
raw `SyntaxError` (the `ast.parse` call sits outside every `try` block). -/
theorem evaluate_syntax_raw (TM : TranscendentalModel) (s : String) (hs : s ≠ "")
    (msg : String) :
    evaluate_expression TM (.pyStr s) (.error msg) = .error (.syntaxError msg) := by
  simp [evaluate_expression, hs]

/-- A validator rejection is returned as-is by `evaluate_expression` (it is an
`EvaluationError`, raised before the `try` block and not caught by anything). -/
theorem evaluate_validate_error (TM : TranscendentalModel) (s : String) (hs : s ≠ "")
    (t : PyExpr) (e : PyError) (hv : validate t = .error e) :
    evaluate_expression TM (.pyStr s) (.ok t) = .error e := by
  simp [evaluate_expression, hs, hv]

/-- An exception raised inside `eval` is re-raised as
`EvaluationError(translateEvalError e)` by the `except` chain. -/
theorem evaluate_eval_error (TM : TranscendentalModel) (s : String) (hs : s ≠ "")
    (t : PyExpr) (e : PyError) (hv : validate t = .ok ())
    (he : evalExpr TM t = .error e) :
    evaluate_expression TM (.pyStr s) (.ok t) =
      .error (.evaluationError (translateEvalError e)) := by
  simp [evaluate_expression, hs, hv, he]

/-- A complex `eval` result is rejected with the fixed message. -/
theorem evaluate_complex_result (TM : TranscendentalModel) (s : String) (hs : s ≠ "")
    (t : PyExpr) (v : Value) (hv : validate t = .ok ())
    (he : evalExpr TM t = .ok v) (hc : isComplexV v = true) :
    evaluate_expression TM (.pyStr s) (.ok t) =
      .error (.evaluationError "Complex results are not supported.") := by
  simp [evaluate_expression, hs, hv, he, hc]

/-- A non-complex `eval` result goes through the bare `float(result)` call,
whose exceptions (if any) are raw. -/
theorem evaluate_float_step (TM : TranscendentalModel) (s : String) (hs : s ≠ "")
    (t : PyExpr) (v : Value) (hv : validate t = .ok ())
    (he : evalExpr TM t = .ok v) (hc : isComplexV v = false) :
    evaluate_expression TM (.pyStr s) (.ok t) = pyFloat v := by
  simp [evaluate_expression, hs, hv, he, hc]

/-- Well-formed arithmetic expressions of the spec's testable-properties
grammar: numeric literals, unary minus, parentheses (implicit in the tree
structure) and the seven binary operators. -/
inductive ArithExpr where
  | lit (q : ℚ)
  | neg (a : ArithExpr)
  | add (a b : ArithExpr)
  | sub (a b : ArithExpr)
  | mul (a b : ArithExpr)
  | div (a b : ArithExpr)
  | mod (a b : ArithExpr)
  | fdiv (a b : ArithExpr)
  | pow (a b : ArithExpr)

/-- Modelled from the spec: the standard mathematical evaluation of an
arithmetic expression ("the result equals the standard evaluation of that
expression").  Exact field arithmetic on rationals; `%` and integer-divide
with the floor convention; power defined for integer exponents (with `0` to a
negative power undefined); division, modulo and integer division by zero
undefined. -/
def arithEval : ArithExpr → Option ℚ
  | .lit q => some q
  | .neg a =>
    match arithEval a with
    | some x => some (-x)
    | none => none
  | .add a b =>
    match arithEval a, arithEval b with
    | some x, some y => some (x + y)
    | _, _ => none
  | .sub a b =>
    match arithEval a, arithEval b with
    | some x, some y => some (x - y)
    | _, _ => none
  | .mul a b =>
    match arithEval a, arithEval b with
    | some x, some y => some (x * y)
    | _, _ => none
  | .div a b =>
    match arithEval a, arithEval b with
    | some x, some y => if y = 0 then none else some (x / y)
    | _, _ => none
  | .mod a b =>
    match arithEval a, arithEval b with
    | some x, some y => if y = 0 then none else some (x - y * (⌊x / y⌋ : ℚ))
    | _, _ => none
  | .fdiv a b =>
    match arithEval a, arithEval b with
    | some x, some y => if y = 0 then none else some ((⌊x / y⌋ : ℤ) : ℚ)
    | _, _ => none
  | .pow a b =>
    match arithEval a, arithEval b with
    | some x, some y =>
      if x = 0 ∧ y < 0 then none
      else if y.den = 1 then some (x ^ y.num)
      else none
    | _, _ => none

/-- The syntax tree `ast.parse` produces for such an arithmetic expression. -/
def toPyExpr : ArithExpr → PyExpr
  | .lit q => .constant (.num q)
  | .neg a => .unaryOp .usub (toPyExpr a)
  | .add a b => .binOp (toPyExpr a) .add (toPyExpr b)
  | .sub a b => .binOp (toPyExpr a) .sub (toPyExpr b)
  | .mul a b => .binOp (toPyExpr a) .mult (toPyExpr b)
  | .div a b => .binOp (toPyExpr a) .div (toPyExpr b)
  | .mod a b => .binOp (toPyExpr a) .mod (toPyExpr b)
  | .fdiv a b => .binOp (toPyExpr a) .floorDiv (toPyExpr b)
  | .pow a b => .binOp (toPyExpr a) .pow (toPyExpr b)

/-- Arithmetic trees contain only whitelisted node kinds, so they pass
validation. -/
theorem validate_toPyExpr (a : ArithExpr) : validate (toPyExpr a) = .ok () := by
  induction a with
  | lit q => rfl
  | neg a ih => simp [toPyExpr, validate, unaryOpAllowed, ih]
  | add a b iha ihb => simp [toPyExpr, validate, iha, ihb]
  | sub a b iha ihb => simp [toPyExpr, validate, iha, ihb]
  | mul a b iha ihb => simp [toPyExpr, validate, iha, ihb]
  | div a b iha ihb => simp [toPyExpr, validate, iha, ihb]
  | mod a b iha ihb => simp [toPyExpr, validate, iha, ihb]
  | fdiv a b iha ihb => simp [toPyExpr, validate, iha, ihb]
  | pow a b iha ihb => simp [toPyExpr, validate, iha, ihb]

/-- Whether the standard value of every subexpression (the expression itself
included) lies inside the IEEE double range.  Within this envelope CPython
evaluation cannot overflow anywhere: int-to-float conversions, true-division
quotients and float power results all stay representable, so exact-rational
arithmetic tracks the program up to float rounding. -/
def arithInRange (t : ArithExpr) : Bool :=
  (match arithEval t with
   | some q => inDoubleRange q
   | none => true) &&
  (match t with
   | .lit _ => true
   | .neg a => arithInRange a
   | .add a b => arithInRange a && arithInRange b
   | .sub a b => arithInRange a && arithInRange b
   | .mul a b => arithInRange a && arithInRange b
   | .div a b => arithInRange a && arithInRange b
   | .mod a b => arithInRange a && arithInRange b
   | .fdiv a b => arithInRange a && arithInRange b
   | .pow a b => arithInRange a && arithInRange b)

/-- The root value of an in-range expression is in the double range. -/
theorem arithInRange_root {t : ArithExpr} {q : ℚ} (h : arithEval t = some q)
    (hr : arithInRange t = true) : inDoubleRange q = true := by
  cases t <;>
    (rw [arithInRange] at hr; rw [h] at hr; dsimp only at hr;
     rw [Bool.and_eq_true] at hr; exact hr.1)

/-- Refinement on arithmetic trees: wherever the spec-side standard
evaluation is defined and every subexpression's value stays inside the
double range, `eval` on the parsed tree computes exactly that value.
(CPython operator semantics on numbers — true division, floor division and
modulo with the floor convention, exact integer powers — agree with the
standard evaluation at every such point; the range condition rules out the
in-operator overflow of true division.) -/
theorem evalExpr_toPyExpr (TM : TranscendentalModel) (a : ArithExpr) (q : ℚ)
    (h : arithEval a = some q) (hr : arithInRange a = true) :
    evalExpr TM (toPyExpr a) = .ok (.num q) := by
  induction a generalizing q with
  | lit x =>
    simp only [arithEval, Option.some.injEq] at h
    subst h
    rfl
  | neg a ih =>
    have hra : arithInRange a = true := by
      rw [arithInRange] at hr
      rw [Bool.and_eq_true] at hr
      exact hr.2
    simp only [arithEval] at h
    rcases ha : arithEval a with _ | x
    · rw [ha] at h; simp at h
    · rw [ha] at h
      simp only [Option.some.injEq] at h
      subst h
      simp [toPyExpr, evalExpr, ih x ha hra, applyUnaryOp, toNumV]
  | add a b iha ihb =>
    have hch : arithInRange a = true ∧ arithInRange b = true := by
      rw [arithInRange] at hr
      rw [Bool.and_eq_true] at hr
      have h2 := hr.2
      rwa [Bool.and_eq_true] at h2
    simp only [arithEval] at h
    rcases ha : arithEval a with _ | x
    · rw [ha] at h; simp at h
    rcases hb : arithEval b with _ | y
    · rw [ha, hb] at h; simp at h
    rw [ha, hb] at h
    simp only [Option.some.injEq] at h
    subst h
    simp [toPyExpr, evalExpr, iha x ha hch.1, ihb y hb hch.2, applyBinOp, toNumV,
      realBinOp]
  | sub a b iha ihb =>
    have hch : arithInRange a = true ∧ arithInRange b = true := by
      rw [arithInRange] at hr
      rw [Bool.and_eq_true] at hr
      have h2 := hr.2
      rwa [Bool.and_eq_true] at h2
    simp only [arithEval] at h
    rcases ha : arithEval a with _ | x
    · rw [ha] at h; simp at h
    rcases hb : arithEval b with _ | y
    · rw [ha, hb] at h; simp at h
    rw [ha, hb] at h
    simp only [Option.some.injEq] at h
    subst h
    simp [toPyExpr, evalExpr, iha x ha hch.1, ihb y hb hch.2, applyBinOp, toNumV,
      realBinOp]
  | mul a b iha ihb =>
    have hch : arithInRange a = true ∧ arithInRange b = true := by
      rw [arithInRange] at hr
      rw [Bool.and_eq_true] at hr
      have h2 := hr.2
      rwa [Bool.and_eq_true] at h2
    simp only [arithEval] at h
    rcases ha : arithEval a with _ | x
    · rw [ha] at h; simp at h
    rcases hb : arithEval b with _ | y
    · rw [ha, hb] at h; simp at h
    rw [ha, hb] at h
    simp only [Option.some.injEq] at h
    subst h
    simp [toPyExpr, evalExpr, iha x ha hch.1, ihb y hb hch.2, applyBinOp, toNumV,
      realBinOp]
  | div a b iha ihb =>
    have h0 := h
    have hch : arithInRange a = true ∧ arithInRange b = true := by
      rw [arithInRange] at hr
      rw [Bool.and_eq_true] at hr
      have h2 := hr.2
      rwa [Bool.and_eq_true] at h2
    simp only [arithEval] at h
    rcases ha : arithEval a with _ | x
    · rw [ha] at h; simp at h
    rcases hb : arithEval b with _ | y
    · rw [ha, hb] at h; simp at h
    rw [ha, hb] at h
    dsimp only at h
    by_cases hy : y = 0
    · rw [if_pos hy] at h; simp at h
    rw [if_neg hy] at h
    simp only [Option.some.injEq] at h
    subst h
    have hq : inDoubleRange (x / y) = true := arithInRange_root h0 hr
    simp [toPyExpr, evalExpr, iha x ha hch.1, ihb y hb hch.2, applyBinOp, toNumV,
      realBinOp, hy, hq]
  | mod a b iha ihb =>
    have hch : arithInRange a = true ∧ arithInRange b = true := by
      rw [arithInRange] at hr
      rw [Bool.and_eq_true] at hr
      have h2 := hr.2
      rwa [Bool.and_eq_true] at h2
    simp only [arithEval] at h
    rcases ha : arithEval a with _ | x
    · rw [ha] at h; simp at h
    rcases hb : arithEval b with _ | y
    · rw [ha, hb] at h; simp at h
    rw [ha, hb] at h
    dsimp only at h
    by_cases hy : y = 0
    · rw [if_pos hy] at h; simp at h
    rw [if_neg hy] at h
    simp only [Option.some.injEq] at h
    subst h
    simp [toPyExpr, evalExpr, iha x ha hch.1, ihb y hb hch.2, applyBinOp, toNumV,
      realBinOp, hy]
  | fdiv a b iha ihb =>
    have hch : arithInRange a = true ∧ arithInRange b = true := by
      rw [arithInRange] at hr
      rw [Bool.and_eq_true] at hr
      have h2 := hr.2
      rwa [Bool.and_eq_true] at h2
    simp only [arithEval] at h
    rcases ha : arithEval a with _ | x
    · rw [ha] at h; simp at h
    rcases hb : arithEval b with _ | y
    · rw [ha, hb] at h; simp at h
    rw [ha, hb] at h
    dsimp only at h
    by_cases hy : y = 0
    · rw [if_pos hy] at h; simp at h
    rw [if_neg hy] at h
    simp only [Option.some.injEq] at h
    subst h
    simp [toPyExpr, evalExpr, iha x ha hch.1, ihb y hb hch.2, applyBinOp, toNumV,
      realBinOp, hy]
  | pow a b iha ihb =>
    have hch : arithInRange a = true ∧ arithInRange b = true := by
      rw [arithInRange] at hr
      rw [Bool.and_eq_true] at hr
      have h2 := hr.2
      rwa [Bool.and_eq_true] at h2
    simp only [arithEval] at h
    rcases ha : arithEval a with _ | x
    · rw [ha] at h; simp at h
    rcases hb : arithEval b with _ | y
    · rw [ha, hb] at h; simp at h
    rw [ha, hb] at h
    dsimp only at h
    by_cases hz : x = 0 ∧ y < 0
    · rw [if_pos hz] at h; simp at h
    rw [if_neg hz] at h
    by_cases hd : y.den = 1
    · rw [if_pos hd] at h
      simp only [Option.some.injEq] at h
      subst h
      simp [toPyExpr, evalExpr, iha x ha hch.1, ihb y hb hch.2, applyBinOp, toNumV,
        realBinOp, hz, hd]
    · rw [if_neg hd] at h; simp at h

/-- The final float conversion returns a number inside the double range
unchanged. -/
theorem pyFloat_num_ok (q : ℚ) (hb : inDoubleRange q = true) :
    pyFloat (.num q) = .ok q := by
  simp only [pyFloat]
  rw [if_pos hb]

/-- In any sequence of calls, the result at a given position is exactly the
independent evaluation of that call's own input. -/
theorem runSession_getElem (TM : TranscendentalModel)
    (l1 : List (PyInput × Except String PyExpr))
    (c : PyInput × Except String PyExpr)
    (l2 : List (PyInput × Except String PyExpr)) :
    (runSession TM (l1 ++ c :: l2))[l1.length]? =
      some (evaluate_expression TM c.1 c.2) := by
  induction l1 with
  | nil => simp [runSession]
  | cons hd tl ih => simpa [runSession] using ih

/-- Claim C7: for every input that is the empty string or is not a string,
`evaluate_expression` fails immediately with kind InvalidExpression and the
exact message "Expression is empty.", before any parsing occurs — the result
is this error for every conceivable parse outcome, including parse failures,
so the guard cannot depend on parsing. -/
theorem claim_C7_theorem (TM : TranscendentalModel)
    (parsed : Except String PyExpr) (b : Bool) :
    evaluate_expression TM (.pyStr "") parsed =
        .error (.evaluationError "Expression is empty.") ∧
      evaluate_expression TM (.pyNonStr b) parsed =
        .error (.evaluationError "Expression is empty.") :=
  ⟨rfl, rfl⟩

/-- Claim C6: every expression whose evaluation performs a division or modulo
by zero — that is, whose evaluation raises `ZeroDivisionError` — fails with
kind InvalidExpression and the exact message "Division by zero.". -/
theorem claim_C6_theorem (TM : TranscendentalModel) (s : String) (t : PyExpr)
    (m : String) (hs : s ≠ "") (hv : validate t = .ok ())
    (he : evalExpr TM t = .error (.zeroDivisionError m)) :
    evaluate_expression TM (.pyStr s) (.ok t) =
      .error (.evaluationError "Division by zero.") :=
  evaluate_eval_error TM s hs t _ hv he

/-- Witness for C6 at the source expression `1/0`. -/
theorem claim_C6_witness :
    evaluate_expression defaultTM (.pyStr "1/0")
      (.ok (.binOp (.constant (.num 1)) .div (.constant (.num 0)))) =
      .error (.evaluationError "Division by zero.") :=
  claim_C6_theorem defaultTM "1/0" _ "division by zero" (by decide) rfl rfl

set_option maxRecDepth 2000 in
unseal Rat.mul Rat.inv in
/-- Claim C5: a complex computed value is rejected with kind
InvalidExpression and the message "Complex results are not supported.";
`sqrt(-1)` fails with a math domain error (rather than returning a complex
number); and `sqrt(16)` evaluates to `4.0`. -/
theorem claim_C5_theorem (TM : TranscendentalModel) :
    (∀ (s : String) (t : PyExpr) (re im : ℚ), s ≠ "" → validate t = .ok () →
        evalExpr TM t = .ok (.complexV re im) →
        evaluate_expression TM (.pyStr s) (.ok t) =
          .error (.evaluationError "Complex results are not supported.")) ∧
      evaluate_expression TM (.pyStr "sqrt(-1)")
        (.ok (.call (.name "sqrt") [.unaryOp .usub (.constant (.num 1))])) =
        .error (.evaluationError "math domain error") ∧
      evaluate_expression TM (.pyStr "sqrt(16)")
        (.ok (.call (.name "sqrt") [.constant (.num 16)])) = .ok 4 :=
  ⟨fun s t re im hs hv he => evaluate_complex_result TM s hs t _ hv he rfl,
   rfl, rfl⟩

/-- Witness for C5: the source expression `1j` evaluates to a complex value
and is rejected with the fixed message. -/
theorem claim_C5_witness :
    evaluate_expression defaultTM (.pyStr "1j")
      (.ok (.constant (.complexLit 0 1))) =
      .error (.evaluationError "Complex results are not supported.") :=
  (claim_C5_theorem defaultTM).1 "1j" _ 0 1 (by decide) rfl rfl

set_option maxRecDepth 4000 in
/-- Claim C4: `fact` and `factorial` are aliases bound to the same function;
on a numeric argument that is a non-negative mathematical integer that
function returns its factorial computed exactly (and `fact(5)` evaluates to
`120.0` through the full pipeline); on every other numeric argument it fails
with the exact message "Factorial is only defined for non-negative
integers.". -/
theorem claim_C4_theorem (TM : TranscendentalModel) :
    SAFE_FUNCTIONS TM "fact" = some factFun ∧
      SAFE_FUNCTIONS TM "factorial" = some factFun ∧
      (∀ q : ℚ, q.den = 1 → 0 ≤ q →
        factFun (.num q) = .ok (.num (Nat.factorial q.num.toNat : ℚ))) ∧
      (∀ q : ℚ, q.den ≠ 1 ∨ q < 0 →
        factFun (.num q) =
          .error (.valueError "Factorial is only defined for non-negative integers.")) ∧
      evaluate_expression TM (.pyStr "fact(5)")
        (.ok (.call (.name "fact") [.constant (.num 5)])) = .ok 120 := by
  refine ⟨rfl, rfl, ?_, ?_, rfl⟩
  · intro q hd hq
    simp only [factFun]
    rw [if_neg]
    push_neg
    exact ⟨hd, hq⟩
  · intro q h
    simp only [factFun]
    rw [if_pos h]

unseal Rat.mul Rat.inv in
/-- Witness for C4 at the arguments 5, 5.5 and -1. -/
theorem claim_C4_witness :
    factFun (.num 5) = .ok (.num (Nat.factorial (5 : ℚ).num.toNat : ℚ)) ∧
      factFun (.num (11 / 2)) =
        .error (.valueError "Factorial is only defined for non-negative integers.") ∧
      factFun (.num (-1)) =
        .error (.valueError "Factorial is only defined for non-negative integers.") :=
  ⟨(claim_C4_theorem defaultTM).2.2.1 5 (by decide) (by decide),
   (claim_C4_theorem defaultTM).2.2.2.1 (11 / 2) (Or.inl (by decide)),
   (claim_C4_theorem defaultTM).2.2.2.1 (-1) (Or.inr (by decide))⟩

unseal Rat.mul Rat.inv in
/-- Claim C9: the registry function `cbrt` is `fun x => math.pow x (1/3)`;
for every non-negative argument it returns the power-operation value of
`x ^ (1/3)` (whatever numeric model the runtime supplies for fractional
powers), and for every negative argument it raises
`ValueError("math domain error")` — a domain error, not the real cube
root. -/
theorem claim_C9_theorem (TM : TranscendentalModel) :
    (∀ x : ℚ, 0 ≤ x →
        applyCall TM (.builtinFunc "cbrt") [.num x] =
          .ok (.num (TM.powFracVal x (1 / 3)))) ∧
      (∀ x : ℚ, x < 0 →
        applyCall TM (.builtinFunc "cbrt") [.num x] =
          .error (.valueError "math domain error")) := by
  constructor
  · intro x hx
    simp only [applyCall, SAFE_FUNCTIONS, asNum, mathPowModel]
    rw [if_neg (by rintro ⟨h0, h3⟩; exact absurd h3 (by decide))]
    rw [if_neg (by rintro ⟨h0, _⟩; exact absurd h0 (not_lt.2 hx))]
    rw [if_neg (by decide)]
  · intro x hx
    simp only [applyCall, SAFE_FUNCTIONS, asNum, mathPowModel]
    rw [if_neg (by rintro ⟨h0, _⟩; rw [h0] at hx; exact absurd hx (by decide))]
    rw [if_pos ⟨hx, by decide⟩]

unseal Rat.mul Rat.inv in
/-- Witness for C9 at the arguments 8 and -8. -/
theorem claim_C9_witness :
    applyCall defaultTM (.builtinFunc "cbrt") [.num 8] =
        .ok (.num (defaultTM.powFracVal 8 (1 / 3))) ∧
      applyCall defaultTM (.builtinFunc "cbrt") [.num (-8)] =
        .error (.valueError "math domain error") :=
  ⟨(claim_C9_theorem defaultTM).1 8 (by decide),
   (claim_C9_theorem defaultTM).2 (-8) (by decide)⟩

/-- Claim C10: the boolean literals parse as the whitelisted `Constant` node
kind and pass validation, and through the final float coercion `True`
evaluates to `1.0` and `False` to `0.0`. -/
theorem claim_C10_theorem (TM : TranscendentalModel) (b : Bool) :
    validate (.constant (.boolLit b)) = .ok () ∧
      evaluate_expression TM (.pyStr "True") (.ok (.constant (.boolLit true))) =
        .ok 1 ∧
      evaluate_expression TM (.pyStr "False") (.ok (.constant (.boolLit false))) =
        .ok 0 :=
  ⟨rfl, rfl, rfl⟩

/-- Claim C8: evaluation is deterministic and stateless.  The embedding of
`evaluate_expression` is a pure function — itself the formal reflection of
the source, whose registry is immutable after import and whose evaluation
environment is rebuilt inside every call — so in any session of calls, every
occurrence of the same expression (with arbitrary other calls before,
between and after) yields the one value determined by that input alone. -/
theorem claim_C8_theorem (TM : TranscendentalModel)
    (c : PyInput × Except String PyExpr)
    (l1 l2 l3 : List (PyInput × Except String PyExpr)) :
    (runSession TM (l1 ++ c :: (l2 ++ c :: l3)))[l1.length]? =
        some (evaluate_expression TM c.1 c.2) ∧
      (runSession TM (l1 ++ c :: (l2 ++ c :: l3)))[(l1 ++ c :: l2).length]? =
        some (evaluate_expression TM c.1 c.2) := by
  constructor
  · exact runSession_getElem TM l1 c (l2 ++ c :: l3)
  · have h := runSession_getElem TM (l1 ++ c :: l2) c l3
    simpa using h

set_option maxRecDepth 9000 in
set_option exponentiation.threshold 2000 in
unseal Rat.add Rat.mul Rat.inv Rat.sub in
/-- Counterexample to claim C3 as stated: `10**400` is a well-formed
arithmetic expression over `**` with a standard mathematical value
(`10 ^ 400`), yet `evaluate_expression` does not return it — the final
`float(result)` call raises an uncaught `OverflowError` because the exact
integer result exceeds the IEEE double range; and `10**400 / 3` overflows
already inside `eval` (big-int true division), which the `except
OverflowError` clause turns into `EvaluationError("Result overflow.")`
instead of the standard value. -/
theorem claim_C3_counterexample :
    arithEval (.pow (.lit 10) (.lit 400)) = some ((10 : ℚ) ^ (400 : ℤ)) ∧
      evaluate_expression defaultTM (.pyStr "10**400")
        (.ok (toPyExpr (.pow (.lit 10) (.lit 400)))) =
        .error (.overflowError "int too large to convert to float") ∧
      evaluate_expression defaultTM (.pyStr "10**400 / 3")
        (.ok (.binOp (toPyExpr (.pow (.lit 10) (.lit 400))) .div
          (.constant (.num 3)))) =
        .error (.evaluationError "Result overflow.") := by
  refine ⟨by decide, by decide, by decide⟩

/-- Claim C3 (amended): for every well-formed arithmetic expression over
numeric literals, unary minus and the seven binary operators, whenever the
standard mathematical evaluation is defined (no division, modulo or
floor-division by zero, powers with integer exponent only, no zero to a
negative power) and the value of every subexpression has magnitude below
`2 ^ 1024` — the IEEE double range, outside which evaluation overflows: an
out-of-range quotient overflows inside `eval` and becomes
`EvaluationError("Result overflow.")`, and an out-of-range integral result
makes the final float conversion raise an uncaught OverflowError, e.g. at
`10**400` — `evaluate_expression` returns exactly that standard value. -/
theorem claim_C3_theorem (TM : TranscendentalModel) (s : String) (a : ArithExpr)
    (q : ℚ) (hs : s ≠ "") (h : arithEval a = some q)
    (hr : arithInRange a = true) :
    evaluate_expression TM (.pyStr s) (.ok (toPyExpr a)) = .ok q := by
  rw [evaluate_float_step TM s hs _ _ (validate_toPyExpr a)
    (evalExpr_toPyExpr TM a q h hr) rfl]
  exact pyFloat_num_ok q (arithInRange_root h hr)

set_option maxRecDepth 4000 in
unseal Rat.add Rat.mul Rat.inv Rat.sub in
/-- Witness for C3 at the spec's own examples `2 + 3 * 4` and `2 ** 10`. -/
theorem claim_C3_witness :
    evaluate_expression defaultTM (.pyStr "2 + 3 * 4")
        (.ok (toPyExpr (.add (.lit 2) (.mul (.lit 3) (.lit 4))))) = .ok 14 ∧
      evaluate_expression defaultTM (.pyStr "2 ** 10")
        (.ok (toPyExpr (.pow (.lit 2) (.lit 10)))) = .ok 1024 :=
  ⟨claim_C3_theorem defaultTM "2 + 3 * 4" _ 14 (by decide) (by decide) (by decide),
   claim_C3_theorem defaultTM "2 ** 10" _ 1024 (by decide) (by decide) (by decide)⟩

/-- Counterexample to claim C2 as stated: a syntax error during parsing is
NOT re-expressed as a core error kind — `ast.parse` runs outside every `try`
block, so the raw `SyntaxError` escapes `evaluate_expression` (the HTTP layer
then reports a 500 internal error, not a 400 evaluation error). -/
theorem claim_C2_counterexample :
    evaluate_expression defaultTM (.pyStr "2 +") (.error "invalid syntax") =
        .error (.syntaxError "invalid syntax") ∧
      isCoreError (.syntaxError "invalid syntax") = false :=
  ⟨rfl, rfl⟩

/-- Claim C2 (amended): every exception raised inside the `eval` step is
re-expressed as an `EvaluationError` via the fixed `except` chain
(`ZeroDivisionError` → "Division by zero.", `ValueError` → its own message,
`OverflowError` → "Result overflow.", anything else → "Invalid
expression."), but the two steps outside the `try` block leak raw
exceptions: a parse failure escapes as a raw `SyntaxError`, and the final
`float(result)` call runs unprotected, so the pipeline returns whatever
`pyFloat` produces — including raw `TypeError`/`ValueError`/`OverflowError`
failures on non-numeric results. -/
theorem claim_C2_theorem (TM : TranscendentalModel) :
    (∀ (s : String) (t : PyExpr) (e : PyError), s ≠ "" → validate t = .ok () →
        evalExpr TM t = .error e →
        evaluate_expression TM (.pyStr s) (.ok t) =
          .error (.evaluationError (translateEvalError e))) ∧
      (∀ s msg : String, s ≠ "" →
        evaluate_expression TM (.pyStr s) (.error msg) =
          .error (.syntaxError msg)) ∧
      (∀ (s : String) (t : PyExpr) (v : Value), s ≠ "" → validate t = .ok () →
        evalExpr TM t = .ok v → isComplexV v = false →
        evaluate_expression TM (.pyStr s) (.ok t) = pyFloat v) :=
  ⟨fun s t e hs hv he => evaluate_eval_error TM s hs t e hv he,
   fun s msg hs => evaluate_syntax_raw TM s hs msg,
   fun s t v hs hv he hc => evaluate_float_step TM s hs t v hv he hc⟩

/-- Witness for C2: `1/0` is wrapped by the `except` chain; `2 -` with a
parse failure returns the raw `SyntaxError`; `(1, 2)` reaches the
unprotected float conversion, which raises a raw `TypeError`. -/
theorem claim_C2_witness :
    evaluate_expression defaultTM (.pyStr "1/0")
        (.ok (.binOp (.constant (.num 1)) .div (.constant (.num 0)))) =
        .error (.evaluationError
          (translateEvalError (.zeroDivisionError "division by zero"))) ∧
      evaluate_expression defaultTM (.pyStr "2 -") (.error "unexpected EOF") =
        .error (.syntaxError "unexpected EOF") ∧
      evaluate_expression defaultTM (.pyStr "(1, 2)")
        (.ok (.tuple [.constant (.num 1), .constant (.num 2)])) =
        pyFloat (.tupleV [.num 1, .num 2]) :=
  ⟨(claim_C2_theorem defaultTM).1 "1/0" _ _ (by decide) rfl rfl,
   (claim_C2_theorem defaultTM).2.1 "2 -" "unexpected EOF" (by decide),
   (claim_C2_theorem defaultTM).2.2 "(1, 2)" _ _ (by decide) rfl rfl rfl⟩

set_option maxRecDepth 4000 in
/-- Counterexample to claim C1 as stated: the expression `'12'` contains a
string literal — one of the constructs the claim says must make
`evaluate_expression` fail — yet it parses as the whitelisted `Constant`
node, passes validation, and evaluates successfully to `12.0` via the final
`float` coercion. -/
theorem claim_C1_counterexample :
    hasStringLit (.constant (.strLit "12")) = true ∧
      evaluate_expression defaultTM (.pyStr "\x2712\x27")
        (.ok (.constant (.strLit "12"))) = .ok 12 :=
  ⟨rfl, by decide⟩

/-- Claim C1 (amended): every tree containing a construct outside the
whitelist — attribute or subscript access, a comprehension, a comparison or
boolean operator (including `not`), a lambda, or a conditional expression —
is rejected by the validator with kind UnsupportedElement naming a
disallowed construct, and such a rejection is exactly what
`evaluate_expression` returns (import and def statements cannot parse in
eval mode at all, so they end in a parse failure); string literals, however,
parse as the whitelisted `Constant` kind and are accepted.  Evaluation
cannot reach functionality outside the Registry: name resolution only ever
produces a registry function, a registry constant, or the inert empty
`__builtins__` dict, and in particular `__import__(...)` fails with
"Invalid expression." because the name resolves to nothing. -/
theorem claim_C1_theorem (TM : TranscendentalModel) :
    (∀ t : PyExpr, hasDisallowed t = true →
        ∃ k, k ∈ disallowedKindNames ∧ validate t = .error (unsupportedMsg k)) ∧
      (∀ (s : String) (t : PyExpr) (e : PyError), s ≠ "" →
        validate t = .error e →
        evaluate_expression TM (.pyStr s) (.ok t) = .error e) ∧
      (∀ s : String, validate (.constant (.strLit s)) = .ok ()) ∧
      (∀ (id : String) (v : Value), resolveName TM id = some v →
        ((SAFE_FUNCTIONS TM id).isSome = true ∧ v = .builtinFunc id) ∨
          (∃ q, SAFE_CONSTANTS id = some q ∧ v = .num q) ∨
          (id = "__builtins__" ∧ v = .emptyDict)) ∧
      evaluate_expression TM (.pyStr "__import__(\x27os\x27)")
        (.ok (.call (.name "__import__") [.constant (.strLit "os")])) =
        .error (.evaluationError "Invalid expression.") := by
  refine ⟨?_, ?_, fun s => rfl, ?_, rfl⟩
  · intro t ht
    rcases validate_shape t with hok | ⟨k, hk, herr⟩
    · rw [validate_ok_iff, ht] at hok
      cases hok
    · exact ⟨k, hk, herr⟩
  · intro s t e hs hv
    exact evaluate_validate_error TM s hs t e hv
  · intro id v h
    unfold resolveName at h
    cases hf : SAFE_FUNCTIONS TM id with
    | some f =>
      rw [hf] at h
      dsimp only at h
      left
      exact ⟨rfl, by injection h with h2; exact h2.symm⟩
    | none =>
      rw [hf] at h
      dsimp only at h
      cases hc : SAFE_CONSTANTS id with
      | some q =>
        rw [hc] at h
        dsimp only at h
        right; left
        exact ⟨q, rfl, by injection h with h2; exact h2.symm⟩
      | none =>
        rw [hc] at h
        dsimp only at h
        by_cases hb : id = "__builtins__"
        · rw [if_pos hb] at h
          right; right
          exact ⟨hb, by injection h with h2; exact h2.symm⟩
        · rw [if_neg hb] at h
          cases h

/-- Witness for C1: an attribute access (`x.y`) is rejected with the
UnsupportedElement message naming the construct, both by the validator and
through the whole pipeline. -/
theorem claim_C1_witness :
    (∃ k, k ∈ disallowedKindNames ∧
        validate (.attribute (.name "x") "y") = .error (unsupportedMsg k)) ∧
      evaluate_expression defaultTM (.pyStr "x.y")
        (.ok (.attribute (.name "x") "y")) = .error (unsupportedMsg "Attribute") :=
  ⟨(claim_C1_theorem defaultTM).1 _ rfl,
   (claim_C1_theorem defaultTM).2.1 "x.y" _ _ (by decide) rfl⟩
